import Mathlib

/-!
A shallow embedding of the `async_comlink` client (`src/async_comlink.py`).

The client is a thin asynchronous wrapper around a remote HTTP API.  We model:

* JSON values (`Json`), since every request body the client builds is a JSON
  object assembled through Python dict literals and key assignments;
* the relevant fragment of Python's `urllib.parse.urlparse` (scheme / netloc /
  hostname / port extraction), which the constructor uses to normalize URLs;
* the `Comlink` object itself: its normalized base URL and whether the
  underlying session is still open;
* every endpoint method as a pure function from its arguments and a response
  oracle (standing for the remote service) to a result together with the list
  of outbound requests issued, in order.

Errors are modelled by `ComlinkError`: `invalidConfiguration` stands for the
`ValueError` raised at construction time, `useAfterClose` for the
`AttributeError` raised when a request method is invoked after `close()` has
set the session to `None`, and `keyError` for Python `KeyError`/`TypeError`
during response field lookups.
-/

set_option maxHeartbeats 1000000

/-- JSON values: the structured payloads built and decoded by the client. -/
inductive Json where
  | null
  | bool (b : Bool)
  | num (n : Int)
  | str (s : String)
  | arr (xs : List Json)
  | obj (fields : List (String × Json))

/-- Lookup of a key in a Python dict, modelled as an insertion-ordered
association list (first match wins; keys are unique by construction). -/
def lookupKey : List (String × Json) → String → Option Json
  | [], _ => none
  | (k0, v0) :: rest, k => if k0 = k then some v0 else lookupKey rest k

/-- `d[k] = v` on a Python dict: update in place if the key exists, else
append, preserving insertion order. -/
def setKey : List (String × Json) → String → Json → List (String × Json)
  | [], k, v => [(k, v)]
  | (k0, v0) :: rest, k, v =>
    if k0 = k then (k0, v) :: rest else (k0, v0) :: setKey rest k v

/-- `k in d` on a Python dict. -/
def hasKey (fs : List (String × Json)) (k : String) : Bool :=
  (lookupKey fs k).isSome

/-- `x[k]` on a decoded JSON value: `none` when the value is not an object or
the key is missing (Python raises `TypeError` / `KeyError` there). -/
def jsonGet : Json → String → Option Json
  | .obj fs, k => lookupKey fs k
  | _, _ => none

/-- Python truthiness of a decoded JSON value. -/
def Json.pyTruthy : Json → Bool
  | .null => false
  | .bool b => b
  | .num n => n ≠ 0
  | .str s => s ≠ ""
  | .arr xs => !xs.isEmpty
  | .obj fs => !fs.isEmpty

/-- Truthiness of an optional JSON argument (`None` is falsy). -/
def pyTruthyOpt : Option Json → Bool
  | none => false
  | some j => j.pyTruthy

/-- A Python `str | int` argument (used for ally codes). -/
inductive PyVal where
  | vStr (s : String)
  | vInt (n : Int)
deriving DecidableEq

/-- Python truthiness of a `str | int` value. -/
def PyVal.truthy : PyVal → Bool
  | .vStr s => s ≠ ""
  | .vInt n => n ≠ 0

/-- Python `str()` of a `str | int` value. -/
def PyVal.pyStr : PyVal → String
  | .vStr s => s
  | .vInt n => toString n

/-- Truthiness of an optional `str | int` argument. -/
def pyTruthy : Option PyVal → Bool
  | none => false
  | some v => v.truthy

/-- Truthiness of an optional string argument. -/
def pyTruthyStr : Option String → Bool
  | none => false
  | some s => s ≠ ""

/-- A single-quote character, used by Python `repr` of strings. -/
def sqc : String := String.singleton (Char.ofNat 39)

mutual
/-- Python `repr()` of a decoded JSON value (approximating string `repr` by
plain single quotes). -/
def pyReprOfJson : Json → String
  | .null => "None"
  | .bool b => if b then "True" else "False"
  | .num n => toString n
  | .str s => sqc ++ s ++ sqc
  | .arr xs => "[" ++ pyReprList xs ++ "]"
  | .obj fs => "\x7b" ++ pyReprFields fs ++ "\x7d"

/-- `repr` of the elements of a Python list, comma separated. -/
def pyReprList : List Json → String
  | [] => ""
  | [x] => pyReprOfJson x
  | x :: y :: xs => pyReprOfJson x ++ ", " ++ pyReprList (y :: xs)

/-- `repr` of the entries of a Python dict, comma separated. -/
def pyReprFields : List (String × Json) → String
  | [] => ""
  | [(k, v)] => sqc ++ k ++ sqc ++ ": " ++ pyReprOfJson v
  | (k, v) :: e :: fs =>
    sqc ++ k ++ sqc ++ ": " ++ pyReprOfJson v ++ ", " ++ pyReprFields (e :: fs)
end

/-- Python `str()` (also f-string interpolation) of a decoded JSON value. -/
def pyStrOfJson : Json → String
  | .str s => s
  | j => pyReprOfJson j

/-- Characters allowed in a URL scheme after the initial letter
(`urllib.parse.scheme_chars`). -/
def isSchemeChar (c : Char) : Bool :=
  c.isAlpha || c.isDigit || c = '+' || c = '-' || c = '.'

/-- Split a character list at the first occurrence of `sep`:
`some (before, after)`, or `none` when `sep` does not occur. -/
def splitFirst (sep : Char) : List Char → Option (List Char × List Char)
  | [] => none
  | c :: cs =>
    if c = sep then some ([], cs)
    else
      match splitFirst sep cs with
      | some (a, b) => some (c :: a, b)
      | none => none

/-- The scheme-splitting step of `urlparse`: when the text before the first
colon is a valid scheme (leading letter, then scheme characters), return it
lowercased together with the remainder; otherwise no scheme. -/
def splitScheme (cs : List Char) : List Char × List Char :=
  match splitFirst ':' cs with
  | some (before, after) =>
    match before with
    | [] => ([], cs)
    | c0 :: _ =>
      if c0.isAlpha && before.all isSchemeChar then
        (before.map Char.toLower, after)
      else ([], cs)
  | none => ([], cs)

/-- The netloc-splitting step of `urlparse`: after `//`, the netloc extends to
the next `/`, `?` or `#`. -/
def splitNetloc : List Char → List Char × List Char
  | '/' :: '/' :: rest =>
    (rest.takeWhile (fun c => c ≠ '/' && c ≠ '?' && c ≠ '#'),
     rest.dropWhile (fun c => c ≠ '/' && c ≠ '?' && c ≠ '#'))
  | cs => ([], cs)

/-- The text after the last occurrence of `sep` (the whole list when `sep`
does not occur): `rpartition(sep)[2]`. -/
def afterLastSep (sep : Char) (cs : List Char) : List Char :=
  (cs.reverse.takeWhile (fun c => c ≠ sep)).reverse

/-- The `_hostinfo` computation of `urlparse` on a netloc: strip userinfo at
the last `@`; inside `[...]` brackets take the bracketed host and the port
after the following colon, otherwise split at the first colon. -/
def hostPortChars (netloc : List Char) : List Char × List Char :=
  let hostinfo := afterLastSep '@' netloc
  if hostinfo.contains '[' then
    match splitFirst '[' hostinfo with
    | some (_, bracketed) =>
      match splitFirst ']' bracketed with
      | some (host, after) =>
        match splitFirst ':' after with
        | some (_, port) => (host, port)
        | none => (host, [])
      | none => (bracketed, [])
    | none => (hostinfo, [])
  else
    match splitFirst ':' hostinfo with
    | some (host, port) => (host, port)
    | none => (hostinfo, [])

/-- Decimal digits to a natural number. -/
def digitsToNat (cs : List Char) : Nat :=
  cs.foldl (fun a c => a * 10 + (c.toNat - 48)) 0

/-- The `port` property of a parse result: `none` for an empty port, the
number for a decimal port in range, and an error (Python `ValueError`) for a
malformed or out-of-range port. -/
def parsePortChars (cs : List Char) : Except Unit (Option Nat) :=
  if cs.isEmpty then .ok none
  else if cs.all Char.isDigit then
    let n := digitsToNat cs
    if n ≤ 65535 then .ok (some n) else .error ()
  else .error ()

/-- Python `s.rstrip("/")`: drop every trailing slash. -/
def rstripSlash (s : String) : String :=
  String.mk ((s.data.reverse.dropWhile (fun c => c = '/')).reverse)

/-- The fragment of a `urlparse` result the client reads: the (lowercased)
scheme, the raw host text and the raw port text. -/
structure ParsedUrl where
  scheme : String
  hostRaw : String
  portRaw : String
deriving DecidableEq

/-- The fragment of `urllib.parse.urlparse` used by the client. -/
def pyUrlparse (s : String) : ParsedUrl :=
  let (sch, rest) := splitScheme s.data
  let (netloc, _) := splitNetloc rest
  let (h, p) := hostPortChars netloc
  { scheme := String.mk sch, hostRaw := String.mk h, portRaw := String.mk p }

/-- The `hostname` property: `None` for an empty host, else lowercased. -/
def ParsedUrl.hostname (u : ParsedUrl) : Option String :=
  if u.hostRaw = "" then none else some (String.mk (u.hostRaw.data.map Char.toLower))

/-- The `port` property of a parse result. -/
def ParsedUrl.port (u : ParsedUrl) : Except Unit (Option Nat) :=
  parsePortChars u.portRaw.data

/-- f-string interpolation of `parsed_url.hostname` (`None` prints as
`"None"`). -/
def hostnameDisplay (u : ParsedUrl) : String :=
  match u.hostname with
  | none => "None"
  | some h => h

/-- Python truthiness of `parsed_url.port` (an `Optional[int]`): falsy when
`None` or `0`. -/
def pyTruthyPort : Option Nat → Bool
  | none => false
  | some n => n ≠ 0

/-- Error kinds surfaced by the client (the spec's error taxonomy):
`invalidConfiguration` is the construction-time `ValueError`, `useAfterClose`
the `AttributeError` from using the `None` session after `close()`, and
`keyError` a missing field during response lookups. -/
inductive ComlinkError where
  | invalidConfiguration
  | useAfterClose
  | keyError (k : String)
deriving DecidableEq

/-- The client state: the normalized base URL and whether `self.session` is
still a live session (`sessionOpen = false` models `self.session = None`). -/
structure Comlink where
  url : String
  sessionOpen : Bool
deriving DecidableEq

/-- HTTP method of an outbound request. -/
inductive HMethod where
  | post
  | get
deriving DecidableEq

/-- An outbound request: method, endpoint path, optional JSON body. -/
structure Request where
  method : HMethod
  endpoint : String
  body : Option Json

/-- The remote service, abstracted as a map from requests to decoded JSON
responses. -/
abbrev Oracle := Request → Json

/-- Result of a client call: the returned value or error, together with the
outbound requests issued, in order. -/
abbrev Ret := Except ComlinkError Json × List Request

/-- `Comlink.__init__`: build the normalized base URL from `(url, host, port)`
(defaults `url="http://localhost:3000"`, `host=None`, `port=3000`).  When
`host` is truthy the scheme is chosen by the `port == 443` test and a falsy
port is replaced by the scheme default; otherwise the trailing-slash-stripped
`url` is parsed, a missing scheme raises `ValueError`, and a falsy parsed port
causes the URL to be rebuilt from scheme, hostname and the scheme-default
port. -/
def Comlink.init (url : String) (host : Option String) (port : Int) :
    Except ComlinkError Comlink :=
  if pyTruthyStr host then
    let protocol := if port = 443 then "https" else "http"
    let port2 : Int :=
      if port = 0 then (if protocol = "https" then 443 else 80) else port
    .ok { url := protocol ++ "://" ++ host.getD "" ++ ":" ++ toString port2,
          sessionOpen := true }
  else
    let stripped := rstripSlash url
    let parsed := pyUrlparse stripped
    if parsed.scheme = "" then
      .error .invalidConfiguration
    else
      match parsed.port with
      | .error _ => .error .invalidConfiguration
      | .ok p =>
        if pyTruthyPort p then
          .ok { url := stripped, sessionOpen := true }
        else
          let defaultPort : Nat := if parsed.scheme = "https" then 443 else 80
          .ok { url := parsed.scheme ++ "://" ++ hostnameDisplay parsed ++ ":" ++
                  toString defaultPort,
                sessionOpen := true }

/-- `Comlink.close`: release the session (idempotent; `self.session = None`). -/
def Comlink.close (c : Comlink) : Comlink :=
  if c.sessionOpen then { c with sessionOpen := false } else c

/-- `Comlink._post`: send a POST with a JSON body to an endpoint.  With the
session released (`close()` already called), `self.session` is `None` and the
attribute access fails before any request is attempted. -/
def Comlink.post (c : Comlink) (o : Oracle) (endpoint : String)
    (payload : Option Json) : Ret :=
  if c.sessionOpen then
    let req : Request := { method := .post, endpoint := endpoint, body := payload }
    (.ok (o req), [req])
  else
    (.error .useAfterClose, [])

/-- The POST request `get_metadata` issues with default arguments
(`enums=False`, `clientSpecs=None`): body `{"enums": false}`. -/
def metadataReq : Request :=
  { method := .post, endpoint := "/metadata",
    body := some (Json.obj [("enums", Json.bool false)]) }

/-- `Comlink.get_metadata(enums=False, clientSpecs=None)`: body starts as
`{"enums": enums}`; a truthy dict `clientSpecs` adds
`payload = {"clientSpecs": clientSpecs}`. -/
def Comlink.get_metadata (c : Comlink) (o : Oracle) (enums : Bool)
    (clientSpecs : Option Json) : Ret :=
  let base : List (String × Json) := [("enums", Json.bool enums)]
  let fields :=
    match clientSpecs with
    | some (Json.obj specs) =>
      if !specs.isEmpty then
        setKey base "payload" (Json.obj [("clientSpecs", Json.obj specs)])
      else base
    | _ => base
  c.post o "/metadata" (some (Json.obj fields))

/-- `Comlink.get_latest_game_version()`: call `get_metadata()` and extract the
two version fields into `{"game": ..., "localization": ...}`. -/
def Comlink.get_latest_game_version (c : Comlink) (o : Oracle) : Ret :=
  match c.get_metadata o false none with
  | (.error e, tr) => (.error e, tr)
  | (.ok metadata, tr) =>
    match jsonGet metadata "latestGamedataVersion" with
    | none => (.error (.keyError "latestGamedataVersion"), tr)
    | some g =>
      match jsonGet metadata "latestLocalizationBundleVersion" with
      | none => (.error (.keyError "latestLocalizationBundleVersion"), tr)
      | some l =>
        (.ok (Json.obj [("game", g), ("localization", l)]), tr)

/-- `Comlink.get_game_data`: resolve the version through
`get_latest_game_version()['game']` when the `version` argument is falsy, then
POST to `/data` with either `items` (stringified `Items.get_value` result) or
`requestSegment` in the payload.  `getValue` abstracts the external
`Items.get_value` helper, which is not part of this repository. -/
def Comlink.get_game_data (c : Comlink) (o : Oracle) (getValue : Json → Json)
    (version : Option String) (include_pve_units : Bool) (request_segment : Int)
    (items : Option Json) (enums : Bool) : Ret :=
  let resolved : Except ComlinkError Json × List Request :=
    if pyTruthyStr version then (.ok (Json.str (version.getD "")), [])
    else
      match c.get_latest_game_version o with
      | (.error e, tr) => (.error e, tr)
      | (.ok v, tr) =>
        match jsonGet v "game" with
        | none => (.error (.keyError "game"), tr)
        | some g => (.ok g, tr)
  match resolved with
  | (.error e, tr) => (.error e, tr)
  | (.ok vjson, tr) =>
    let pf : List (String × Json) :=
      [("version", Json.str (pyStrOfJson vjson)),
       ("includePveUnits", Json.bool include_pve_units)]
    let pf :=
      if pyTruthyOpt items then
        setKey pf "items" (Json.str (pyStrOfJson (getValue (items.getD Json.null))))
      else
        setKey pf "requestSegment" (Json.num request_segment)
    match c.post o "/data"
        (some (Json.obj [("payload", Json.obj pf), ("enums", Json.bool enums)])) with
    | (r, tr2) => (r, tr ++ tr2)

/-- `Comlink.get_player(allycode=None, playerId=None, enums=False)`: a truthy
`playerId` wins, else a truthy `allycode`; the chosen identifier is
stringified. -/
def Comlink.get_player (c : Comlink) (o : Oracle) (allycode : Option PyVal)
    (playerId : Option String) (enums : Bool) : Ret :=
  let pf : List (String × Json) := []
  let pf :=
    if pyTruthyStr playerId then
      setKey pf "playerId" (Json.str (playerId.getD ""))
    else if pyTruthy allycode then
      setKey pf "allyCode" (Json.str ((allycode.getD (.vStr "")).pyStr))
    else pf
  c.post o "/player"
    (some (Json.obj [("payload", Json.obj pf), ("enums", Json.bool enums)]))

/-- `Comlink.get_player_arena(allycode=None, playerId=None,
player_details_only=False, enums=False)`: a truthy `allycode` wins, else a
truthy `playerId`; `playerDetailsOnly` is always attached afterwards. -/
def Comlink.get_player_arena (c : Comlink) (o : Oracle) (allycode : Option PyVal)
    (playerId : Option String) (player_details_only : Bool) (enums : Bool) : Ret :=
  let pf : List (String × Json) := []
  let pf :=
    if pyTruthy allycode then
      setKey pf "allyCode" (Json.str ((allycode.getD (.vStr "")).pyStr))
    else if pyTruthyStr playerId then
      setKey pf "playerId" (Json.str (playerId.getD ""))
    else pf
  let pf := setKey pf "playerDetailsOnly" (Json.bool player_details_only)
  c.post o "/playerArena"
    (some (Json.obj [("payload", Json.obj pf), ("enums", Json.bool enums)]))

/-- `Comlink.get_localization(id=None, unzip=False, locale=None,
enums=False)`: a falsy `id` is resolved through
`get_latest_game_version()['localization']`; a truthy `locale` appends
`":" + locale.upper()`; the payload is
`{"payload": {"id": ...}, "unzip": ..., "enums": ...}`. -/
def Comlink.get_localization (c : Comlink) (o : Oracle) (id : Option String)
    (unzip : Bool) (locale : Option String) (enums : Bool) : Ret :=
  let resolved : Except ComlinkError Json × List Request :=
    if pyTruthyStr id then (.ok (Json.str (id.getD "")), [])
    else
      match c.get_latest_game_version o with
      | (.error e, tr) => (.error e, tr)
      | (.ok v, tr) =>
        match jsonGet v "localization" with
        | none => (.error (.keyError "localization"), tr)
        | some l => (.ok l, tr)
  match resolved with
  | (.error e, tr) => (.error e, tr)
  | (.ok idVal, tr) =>
    let idStr := pyStrOfJson idVal
    let idStr :=
      if pyTruthyStr locale then
        idStr ++ ":" ++ String.mk ((locale.getD "").data.map Char.toUpper)
      else idStr
    match c.post o "/localization"
        (some (Json.obj [("payload", Json.obj [("id", Json.str idStr)]),
                         ("unzip", Json.bool unzip),
                         ("enums", Json.bool enums)])) with
    | (r, tr2) => (r, tr ++ tr2)

/-- `Comlink.get_events(enums=False)`: body `{"enums": enums}` — no
`payload` key. -/
def Comlink.get_events (c : Comlink) (o : Oracle) (enums : Bool) : Ret :=
  c.post o "/getEvents" (some (Json.obj [("enums", Json.bool enums)]))

/-- `Comlink.get_guild(guildId, include_recent_activity=False, enums=False)`. -/
def Comlink.get_guild (c : Comlink) (o : Oracle) (guildId : String)
    (include_recent_activity : Bool) (enums : Bool) : Ret :=
  c.post o "/guild"
    (some (Json.obj
      [("payload", Json.obj
        [("guildId", Json.str guildId),
         ("includeRecentGuildActivityInfo", Json.bool include_recent_activity)]),
       ("enums", Json.bool enums)]))

/-- `Comlink.get_guilds_by_name(name, start_index=0, count=10, enums=False)`. -/
def Comlink.get_guilds_by_name (c : Comlink) (o : Oracle) (name : String)
    (start_index : Int) (count : Int) (enums : Bool) : Ret :=
  c.post o "/getGuilds"
    (some (Json.obj
      [("payload", Json.obj
        [("filterType", Json.num 4),
         ("startIndex", Json.num start_index),
         ("name", Json.str name),
         ("count", Json.num count)]),
       ("enums", Json.bool enums)]))

/-- `Comlink.get_guilds_by_criteria(...)`: filter type 5 with a nested
`searchCriteria` object. -/
def Comlink.get_guilds_by_criteria (c : Comlink) (o : Oracle)
    (start_index count min_member_count max_member_count : Int)
    (include_invite_only : Bool) (min_galactic_power max_galactic_power : Int)
    (recent_tb : List String) (enums : Bool) : Ret :=
  c.post o "/getGuilds"
    (some (Json.obj
      [("payload", Json.obj
        [("filterType", Json.num 5),
         ("startIndex", Json.num start_index),
         ("count", Json.num count),
         ("searchCriteria", Json.obj
           [("minMemberCount", Json.num min_member_count),
            ("maxMemberCount", Json.num max_member_count),
            ("includeInviteOnly", Json.bool include_invite_only),
            ("minGuildGalacticPower", Json.num min_galactic_power),
            ("maxGuildGalacticPower", Json.num max_galactic_power),
            ("recentTbParticipatedIn", Json.arr (recent_tb.map Json.str))])]),
       ("enums", Json.bool enums)]))

/-- A Python `Optional[str]` serialized to JSON (`None` becomes `null`). -/
def optStrJson : Option String → Json
  | none => Json.null
  | some s => Json.str s

/-- A Python `Optional[int]` serialized to JSON (`None` becomes `null`). -/
def optIntJson : Option Int → Json
  | none => Json.null
  | some n => Json.num n

/-- `Comlink.get_leaderboard(leaderboard_type, event_instance_id=None,
group_id=None, league=None, division=None, enums=False)`: type 4 attaches
`eventInstanceId`/`groupId`, type 6 attaches `league`/`division`, any other
type attaches neither. -/
def Comlink.get_leaderboard (c : Comlink) (o : Oracle) (leaderboard_type : Int)
    (event_instance_id group_id : Option String) (league division : Option Int)
    (enums : Bool) : Ret :=
  let pf : List (String × Json) := [("leaderboardType", Json.num leaderboard_type)]
  let pf :=
    if leaderboard_type = 4 then
      setKey (setKey pf "eventInstanceId" (optStrJson event_instance_id))
        "groupId" (optStrJson group_id)
    else if leaderboard_type = 6 then
      setKey (setKey pf "league" (optIntJson league))
        "division" (optIntJson division)
    else pf
  c.post o "/getLeaderboard"
    (some (Json.obj [("payload", Json.obj pf), ("enums", Json.bool enums)]))

/-- `Comlink.get_guild_leaderboard(leaderboard_id=[], count=200, enums=False)`. -/
def Comlink.get_guild_leaderboard (c : Comlink) (o : Oracle)
    (leaderboard_id : List Json) (count : Int) (enums : Bool) : Ret :=
  c.post o "/getGuildLeaderboard"
    (some (Json.obj
      [("payload", Json.obj
        [("leaderboardId", Json.arr leaderboard_id),
         ("count", Json.num count)]),
       ("enums", Json.bool enums)]))

/-- `Comlink.get_enums()`: a GET to `/enums` with no body; with the session
released, the attribute access on `None` fails before any request. -/
def Comlink.get_enums (c : Comlink) (o : Oracle) : Ret :=
  if c.sessionOpen then
    let req : Request := { method := .get, endpoint := "/enums", body := none }
    (.ok (o req), [req])
  else
    (.error .useAfterClose, [])

/-- A live client with the default base URL, used to instantiate theorems. -/
def anyComlink : Comlink :=
  { url := "http://localhost:3000", sessionOpen := true }

/-- An arbitrary remote service that answers `null` to everything. -/
def anyOracle : Oracle := fun _ => Json.null

/-- A remote service whose metadata response carries concrete version fields. -/
def demoOracle : Oracle := fun _ =>
  Json.obj [("latestGamedataVersion", Json.str "g1"),
            ("latestLocalizationBundleVersion", Json.str "l1")]

/-- A POST request body of the documented shape: a JSON object carrying an
`enums` boolean, and a `payload` key except on the two endpoints whose bodies
may omit it (`/getEvents`, and `/metadata` without client specs). -/
def postBodyOk (r : Request) : Prop :=
  r.method = HMethod.post ∧
  ∃ fs, r.body = some (Json.obj fs) ∧
    (∃ b, lookupKey fs "enums" = some (Json.bool b)) ∧
    (hasKey fs "payload" = true ∨ r.endpoint = "/getEvents" ∨
      r.endpoint = "/metadata")

/-- The request body is a JSON object containing a `payload` key. -/
def hasPayloadKey (r : Request) : Prop :=
  ∃ fs, r.body = some (Json.obj fs) ∧ hasKey fs "payload" = true

/-- The request body is a JSON object whose `payload` key holds a structured
value (a JSON object). -/
def hasStructuredPayload (r : Request) : Prop :=
  ∃ fs pf, r.body = some (Json.obj fs) ∧
    lookupKey fs "payload" = some (Json.obj pf)

/-- The `/localization` POST request built for a resolved id `v`. -/
def locReqOf (v : String) (unzip enums : Bool) : Request :=
  { method := .post, endpoint := "/localization",
    body := some (Json.obj
      [("payload", Json.obj [("id", Json.str v)]),
       ("unzip", Json.bool unzip),
       ("enums", Json.bool enums)]) }

lemma mem_post_trace {c : Comlink} {o : Oracle} {ep : String} {p : Option Json}
    {r : Request} (hr : r ∈ (Comlink.post c o ep p).2) :
    r = { method := .post, endpoint := ep, body := p } := by
  unfold Comlink.post at hr
  split at hr
  · simpa using hr
  · simp at hr

lemma post_closed {c : Comlink} (o : Oracle) (ep : String) (p : Option Json)
    (h : c.sessionOpen = false) :
    Comlink.post c o ep p = (.error .useAfterClose, []) := by
  unfold Comlink.post
  simp [h]

lemma post_open {c : Comlink} (o : Oracle) (ep : String) (p : Option Json)
    (h : c.sessionOpen = true) :
    Comlink.post c o ep p =
      (.ok (o { method := .post, endpoint := ep, body := p }),
       [{ method := .post, endpoint := ep, body := p }]) := by
  unfold Comlink.post
  simp [h]

lemma get_metadata_default (c : Comlink) (o : Oracle) :
    Comlink.get_metadata c o false none =
      Comlink.post c o "/metadata" (some (Json.obj [("enums", Json.bool false)])) :=
  rfl

lemma glgv_ok {c : Comlink} {o : Oracle} (hopen : c.sessionOpen = true)
    {g l : Json}
    (hg : jsonGet (o metadataReq) "latestGamedataVersion" = some g)
    (hl : jsonGet (o metadataReq) "latestLocalizationBundleVersion" = some l) :
    Comlink.get_latest_game_version c o =
      (.ok (Json.obj [("game", g), ("localization", l)]), [metadataReq]) := by
  unfold Comlink.get_latest_game_version
  rw [get_metadata_default, post_open o _ _ hopen]
  have hreq :
      ({ method := .post, endpoint := "/metadata",
         body := some (Json.obj [("enums", Json.bool false)]) } : Request) =
        metadataReq := rfl
  rw [hreq]
  simp [hg, hl]

lemma mem_glgv_trace {c : Comlink} {o : Oracle} {r : Request}
    (hr : r ∈ (Comlink.get_latest_game_version c o).2) : r = metadataReq := by
  unfold Comlink.get_latest_game_version at hr
  rw [get_metadata_default] at hr
  rcases hp : Comlink.post c o "/metadata" (some (Json.obj [("enums", Json.bool false)]))
    with ⟨res, tr⟩
  rw [hp] at hr
  have htr : r ∈ tr := by
    rcases res with e | m
    · simpa using hr
    · rcases hg : jsonGet m "latestGamedataVersion" with _ | g
      · simpa [hg] using hr
      · rcases hl : jsonGet m "latestLocalizationBundleVersion" with _ | l
        · simpa [hg, hl] using hr
        · simpa [hg, hl] using hr
  have : tr = (Comlink.post c o "/metadata"
      (some (Json.obj [("enums", Json.bool false)]))).2 := by rw [hp]
  rw [this] at htr
  exact mem_post_trace htr

/-- C1 (counterexample): the claim says that when no port is supplied the
port defaults to 443 (https) or 80 (http).  In the code the omitted port is
the signature default 3000, so `Comlink(host="example.com")` yields base URL
`http://example.com:3000`, which matches neither default-port URL. -/
theorem C1_counterexample :
    Comlink.init "http://localhost:3000" (some "example.com") 3000 =
      .ok { url := "http://example.com:3000", sessionOpen := true } ∧
    "http://example.com:3000" ≠ "http://example.com:80" ∧
    "http://example.com:3000" ≠ "https://example.com:443" :=
  ⟨rfl, by decide, by decide⟩

/-- C1 (amended): for every construction with a truthy host, the base URL is
`scheme://host:port` where the scheme is https exactly when the supplied port
equals 443 and http otherwise, and the port is the supplied port except that
a falsy supplied port (0) is replaced by the scheme default 80; an omitted
port is the signature default 3000, not 443 or 80. -/
theorem C1_host_scheme_port (url h : String) (port : Int) (hh : h ≠ "") :
    Comlink.init url (some h) port =
      .ok { url := (if port = 443 then "https" else "http") ++ "://" ++ h ++ ":" ++
              toString (if port = 0 then (80 : Int) else port),
            sessionOpen := true } := by
  by_cases h0 : port = 0
  · subst h0
    simp [Comlink.init, pyTruthyStr, hh]
  · by_cases h443 : port = 443
    · subst h443
      simp [Comlink.init, pyTruthyStr, hh]
    · simp [Comlink.init, pyTruthyStr, hh, h0, h443]

/-- C1 witness: the spec's own example `host="example.com", port=443` gives
`https://example.com:443`. -/
theorem C1_host_scheme_port_witness :
    "example.com" ≠ "" ∧
    Comlink.init "http://localhost:3000" (some "example.com") 443 =
      .ok { url := "https://example.com:443", sessionOpen := true } :=
  ⟨by decide,
   C1_host_scheme_port "http://localhost:3000" "example.com" 443 (by decide)⟩

/-- C3: every request method invoked on a client after `close()` returns the
use-after-close error and issues no outbound request at all. -/
theorem C3_use_after_close (c : Comlink) (o : Oracle) :
    (∀ (e : Bool) (cs : Option Json),
      Comlink.get_metadata c.close o e cs = (.error .useAfterClose, [])) ∧
    (Comlink.get_latest_game_version c.close o = (.error .useAfterClose, [])) ∧
    (∀ (gv : Json → Json) (v : Option String) (ipv : Bool) (seg : Int)
       (items : Option Json) (e : Bool),
      Comlink.get_game_data c.close o gv v ipv seg items e =
        (.error .useAfterClose, [])) ∧
    (∀ (a : Option PyVal) (pid : Option String) (e : Bool),
      Comlink.get_player c.close o a pid e = (.error .useAfterClose, [])) ∧
    (∀ (a : Option PyVal) (pid : Option String) (pdo e : Bool),
      Comlink.get_player_arena c.close o a pid pdo e =
        (.error .useAfterClose, [])) ∧
    (∀ (id : Option String) (unzip : Bool) (loc : Option String) (e : Bool),
      Comlink.get_localization c.close o id unzip loc e =
        (.error .useAfterClose, [])) ∧
    (∀ (e : Bool), Comlink.get_events c.close o e = (.error .useAfterClose, [])) ∧
    (∀ (g : String) (inc e : Bool),
      Comlink.get_guild c.close o g inc e = (.error .useAfterClose, [])) ∧
    (∀ (n : String) (si ct : Int) (e : Bool),
      Comlink.get_guilds_by_name c.close o n si ct e =
        (.error .useAfterClose, [])) ∧
    (∀ (si ct mn mx : Int) (ii : Bool) (mg xg : Int) (tb : List String) (e : Bool),
      Comlink.get_guilds_by_criteria c.close o si ct mn mx ii mg xg tb e =
        (.error .useAfterClose, [])) ∧
    (∀ (t : Int) (ei gi : Option String) (l d : Option Int) (e : Bool),
      Comlink.get_leaderboard c.close o t ei gi l d e =
        (.error .useAfterClose, [])) ∧
    (∀ (ids : List Json) (ct : Int) (e : Bool),
      Comlink.get_guild_leaderboard c.close o ids ct e =
        (.error .useAfterClose, [])) ∧
    (Comlink.get_enums c.close o = (.error .useAfterClose, [])) := by
  have hcl : (Comlink.close c).sessionOpen = false := by
    unfold Comlink.close
    split <;> simp_all
  have hpost : ∀ (ep : String) (p : Option Json),
      Comlink.post c.close o ep p = (.error .useAfterClose, []) :=
    fun ep p => post_closed o ep p hcl
  have hmeta : ∀ (e : Bool) (cs : Option Json),
      Comlink.get_metadata c.close o e cs = (.error .useAfterClose, []) := by
    intro e cs
    unfold Comlink.get_metadata
    exact hpost _ _
  have hglgv : Comlink.get_latest_game_version c.close o =
      (.error .useAfterClose, []) := by
    unfold Comlink.get_latest_game_version
    rw [hmeta false none]
  have hgd : ∀ (gv : Json → Json) (v : Option String) (ipv : Bool) (seg : Int)
      (items : Option Json) (e : Bool),
      Comlink.get_game_data c.close o gv v ipv seg items e =
        (.error .useAfterClose, []) := by
    intro gv v ipv seg items e
    unfold Comlink.get_game_data
    by_cases hv : pyTruthyStr v = true
    · simp [hv, hpost]
    · simp [hv, hglgv]
  have hloc : ∀ (id : Option String) (unzip : Bool) (loc : Option String)
      (e : Bool),
      Comlink.get_localization c.close o id unzip loc e =
        (.error .useAfterClose, []) := by
    intro id unzip loc e
    unfold Comlink.get_localization
    by_cases hid : pyTruthyStr id = true
    · simp [hid, hpost]
    · simp [hid, hglgv]
  have henums : Comlink.get_enums c.close o = (.error .useAfterClose, []) := by
    unfold Comlink.get_enums
    simp [hcl]
  refine ⟨hmeta, hglgv, hgd, ?_, ?_, hloc, ?_, ?_, ?_, ?_, ?_, ?_, henums⟩
  · intro a pid e
    unfold Comlink.get_player
    exact hpost _ _
  · intro a pid pdo e
    unfold Comlink.get_player_arena
    exact hpost _ _
  · intro e
    unfold Comlink.get_events
    exact hpost _ _
  · intro g inc e
    unfold Comlink.get_guild
    exact hpost _ _
  · intro n si ct e
    unfold Comlink.get_guilds_by_name
    exact hpost _ _
  · intro si ct mn mx ii mg xg tb e
    unfold Comlink.get_guilds_by_criteria
    exact hpost _ _
  · intro t ei gi l d e
    unfold Comlink.get_leaderboard
    exact hpost _ _
  · intro ids ct e
    unfold Comlink.get_guild_leaderboard
    exact hpost _ _

/-- C4 (counterexample): the claim says an explicit port is always preserved.
The URL `http://foo.bar:0` has the explicit port 0, yet `not parsed_url.port`
treats 0 as falsy, so the code rebuilds the URL with the default port:
`http://foo.bar:80`. -/
theorem C4_counterexample :
    (pyUrlparse (rstripSlash "http://foo.bar:0")).port = Except.ok (some 0) ∧
    Comlink.init "http://foo.bar:0" none 3000 =
      .ok { url := "http://foo.bar:80", sessionOpen := true } ∧
    "http://foo.bar:80" ≠ "http://foo.bar:0" :=
  ⟨rfl, rfl, by decide⟩

/-- C4 (amended): for every URL with a scheme, trailing slashes are stripped;
an explicit nonzero port is preserved (the base URL is the stripped input);
with no explicit port, or an explicit port 0 (falsy, treated as absent), the
URL is rebuilt as `scheme://hostname:default` with the scheme-appropriate
default port (443 for https, 80 for http). -/
theorem C4_url_scheme_port (url : String)
    (hscheme : (pyUrlparse (rstripSlash url)).scheme ≠ "") :
    (∀ n : Nat, (pyUrlparse (rstripSlash url)).port = .ok (some n) → n ≠ 0 →
      Comlink.init url none 3000 =
        .ok { url := rstripSlash url, sessionOpen := true }) ∧
    (∀ p : Option Nat, (pyUrlparse (rstripSlash url)).port = .ok p →
      (p = none ∨ p = some 0) →
      Comlink.init url none 3000 =
        .ok { url := (pyUrlparse (rstripSlash url)).scheme ++ "://" ++
                hostnameDisplay (pyUrlparse (rstripSlash url)) ++ ":" ++
                toString (if (pyUrlparse (rstripSlash url)).scheme = "https"
                          then (443 : Nat) else 80),
              sessionOpen := true }) := by
  constructor
  · intro n hp hn
    unfold Comlink.init
    simp [pyTruthyStr, hscheme, hp, pyTruthyPort, hn]
  · intro p hp hc
    unfold Comlink.init
    rcases hc with h | h <;> subst h <;>
      simp [pyTruthyStr, hscheme, hp, pyTruthyPort]

/-- C4 witness: the spec's own example `url="http://foo.bar"` (scheme present,
no explicit port) yields base URL `http://foo.bar:80`. -/
theorem C4_url_scheme_port_witness :
    (pyUrlparse (rstripSlash "http://foo.bar")).scheme ≠ "" ∧
    (pyUrlparse (rstripSlash "http://foo.bar")).port = Except.ok none ∧
    Comlink.init "http://foo.bar" none 3000 =
      .ok { url := "http://foo.bar:80", sessionOpen := true } :=
  ⟨by decide, rfl,
   (C4_url_scheme_port "http://foo.bar" (by decide)).2 none rfl (Or.inl rfl)⟩

/-- C5: for every URL supplied at construction (with no host given) that
lacks a scheme after trailing-slash stripping, construction fails immediately
with the invalid-configuration error (the `ValueError` of the source); no
client object is produced and no request can be attempted. -/
theorem C5_schemeless_url_fails (url : String) (host : Option String)
    (port : Int) (hhost : pyTruthyStr host = false)
    (hscheme : (pyUrlparse (rstripSlash url)).scheme = "") :
    Comlink.init url host port = .error .invalidConfiguration := by
  unfold Comlink.init
  simp [hhost, hscheme]

/-- C5 witness: `url="foo.bar"` has no scheme and construction fails. -/
theorem C5_schemeless_url_fails_witness :
    pyTruthyStr (none : Option String) = false ∧
    (pyUrlparse (rstripSlash "foo.bar")).scheme = "" ∧
    Comlink.init "foo.bar" none 3000 = .error .invalidConfiguration :=
  ⟨rfl, rfl, C5_schemeless_url_fails "foo.bar" none 3000 rfl rfl⟩

lemma snd_post_step (c : Comlink) (o : Oracle) (ep : String) (p : Option Json)
    (tr : List Request) :
    (match Comlink.post c o ep p with
     | (r, tr2) => (r, tr ++ tr2)).2 = tr ++ (Comlink.post c o ep p).2 := by
  rcases hpp : Comlink.post c o ep p with ⟨r, tr2⟩
  rfl

/-- C6: `get_localization(id=None)` issues exactly two outbound requests, in
order: first the metadata request, then the localization request; and the
`id` field of the localization payload is exactly the localization version
resolved from the metadata response. -/
theorem C6_localization_two_requests (c : Comlink) (o : Oracle)
    (unzip enums : Bool) (hopen : c.sessionOpen = true) (g : Json) (v : String)
    (hg : jsonGet (o metadataReq) "latestGamedataVersion" = some g)
    (hl : jsonGet (o metadataReq) "latestLocalizationBundleVersion" =
      some (Json.str v)) :
    Comlink.get_localization c o none unzip none enums =
      (.ok (o (locReqOf v unzip enums)),
       [metadataReq, locReqOf v unzip enums]) := by
  unfold Comlink.get_localization
  rw [show pyTruthyStr (none : Option String) = false from rfl]
  rw [glgv_ok hopen hg hl]
  simp [jsonGet, lookupKey, pyStrOfJson, pyTruthyStr, Comlink.post, hopen,
    locReqOf]

/-- C6 witness: with a concrete metadata response carrying localization
version `"l1"`, the two requests and the resolved id are produced. -/
theorem C6_localization_two_requests_witness :
    anyComlink.sessionOpen = true ∧
    jsonGet (demoOracle metadataReq) "latestGamedataVersion" =
      some (Json.str "g1") ∧
    jsonGet (demoOracle metadataReq) "latestLocalizationBundleVersion" =
      some (Json.str "l1") ∧
    Comlink.get_localization anyComlink demoOracle none false none false =
      (.ok (demoOracle (locReqOf "l1" false false)),
       [metadataReq, locReqOf "l1" false false]) :=
  ⟨rfl, rfl, rfl,
   C6_localization_two_requests anyComlink demoOracle false false rfl
     (Json.str "g1") "l1" rfl rfl⟩

/-- C7: the numeric leaderboard type selects the optional payload fields:
type 4 attaches `eventInstanceId` and `groupId`, type 6 attaches `league` and
`division`, and any other type attaches neither. -/
theorem C7_leaderboard_type_fields (c : Comlink) (o : Oracle) (t : Int)
    (ei gi : Option String) (l d : Option Int) (e : Bool)
    (hopen : c.sessionOpen = true) :
    (Comlink.get_leaderboard c o t ei gi l d e).2 =
      [{ method := .post, endpoint := "/getLeaderboard",
         body := some (Json.obj
           [("payload", Json.obj
             (if t = 4 then
               [("leaderboardType", Json.num t),
                ("eventInstanceId", optStrJson ei), ("groupId", optStrJson gi)]
              else if t = 6 then
               [("leaderboardType", Json.num t),
                ("league", optIntJson l), ("division", optIntJson d)]
              else [("leaderboardType", Json.num t)])),
            ("enums", Json.bool e)]) }] := by
  unfold Comlink.get_leaderboard
  by_cases h4 : t = 4
  · simp [h4, setKey, Comlink.post, hopen]
  · by_cases h6 : t = 6 <;> simp [h4, h6, setKey, Comlink.post, hopen]

/-- C7 witness: the spec's example
`get_leaderboard(leaderboard_type=4, event_instance_id="E1", group_id="G1")`
produces the payload
`{payload: {leaderboardType: 4, eventInstanceId: "E1", groupId: "G1"},
enums: false}`. -/
theorem C7_leaderboard_type_fields_witness :
    anyComlink.sessionOpen = true ∧
    (Comlink.get_leaderboard anyComlink anyOracle 4 (some "E1") (some "G1")
        none none false).2 =
      [{ method := .post, endpoint := "/getLeaderboard",
         body := some (Json.obj
           [("payload", Json.obj
             [("leaderboardType", Json.num 4),
              ("eventInstanceId", Json.str "E1"),
              ("groupId", Json.str "G1")]),
            ("enums", Json.bool false)]) }] :=
  ⟨rfl,
   C7_leaderboard_type_fields anyComlink anyOracle 4 (some "E1") (some "G1")
     none none false rfl⟩

/-- C8: when both identifiers are truthy, `get_player` sends only `playerId`
(playerId wins) while `get_player_arena` sends only `allyCode` (allycode
wins; `playerDetailsOnly` is always attached as well); when only one
identifier is truthy, that one is sent, stringified. -/
theorem C8_identifier_precedence (c : Comlink) (o : Oracle) (a : Option PyVal)
    (pid : Option String) (pdo e : Bool) (hopen : c.sessionOpen = true) :
    (pyTruthyStr pid = true →
      (Comlink.get_player c o a pid e).2 =
        [{ method := .post, endpoint := "/player",
           body := some (Json.obj
             [("payload", Json.obj [("playerId", Json.str (pid.getD ""))]),
              ("enums", Json.bool e)]) }]) ∧
    (pyTruthyStr pid = false → pyTruthy a = true →
      (Comlink.get_player c o a pid e).2 =
        [{ method := .post, endpoint := "/player",
           body := some (Json.obj
             [("payload", Json.obj
               [("allyCode", Json.str ((a.getD (.vStr "")).pyStr))]),
              ("enums", Json.bool e)]) }]) ∧
    (pyTruthy a = true →
      (Comlink.get_player_arena c o a pid pdo e).2 =
        [{ method := .post, endpoint := "/playerArena",
           body := some (Json.obj
             [("payload", Json.obj
               [("allyCode", Json.str ((a.getD (.vStr "")).pyStr)),
                ("playerDetailsOnly", Json.bool pdo)]),
              ("enums", Json.bool e)]) }]) ∧
    (pyTruthy a = false → pyTruthyStr pid = true →
      (Comlink.get_player_arena c o a pid pdo e).2 =
        [{ method := .post, endpoint := "/playerArena",
           body := some (Json.obj
             [("payload", Json.obj
               [("playerId", Json.str (pid.getD "")),
                ("playerDetailsOnly", Json.bool pdo)]),
              ("enums", Json.bool e)]) }]) := by
  refine ⟨?_, ?_, ?_, ?_⟩
  · intro hpid
    unfold Comlink.get_player
    simp [hpid, setKey, Comlink.post, hopen]
  · intro hpid ha
    unfold Comlink.get_player
    simp [hpid, ha, setKey, Comlink.post, hopen]
  · intro ha
    unfold Comlink.get_player_arena
    simp [ha, setKey, Comlink.post, hopen]
  · intro ha hpid
    unfold Comlink.get_player_arena
    simp [ha, hpid, setKey, Comlink.post, hopen]

/-- C8 witness: with both `allycode=123` and `playerId="p1"` given,
`get_player` sends only the player id and `get_player_arena` sends only the
(stringified) ally code. -/
theorem C8_identifier_precedence_witness :
    anyComlink.sessionOpen = true ∧
    pyTruthyStr (some "p1") = true ∧
    pyTruthy (some (PyVal.vInt 123)) = true ∧
    (Comlink.get_player anyComlink anyOracle (some (PyVal.vInt 123))
        (some "p1") false).2 =
      [{ method := .post, endpoint := "/player",
         body := some (Json.obj
           [("payload", Json.obj [("playerId", Json.str "p1")]),
            ("enums", Json.bool false)]) }] ∧
    (Comlink.get_player_arena anyComlink anyOracle (some (PyVal.vInt 123))
        (some "p1") false false).2 =
      [{ method := .post, endpoint := "/playerArena",
         body := some (Json.obj
           [("payload", Json.obj
             [("allyCode", Json.str "123"),
              ("playerDetailsOnly", Json.bool false)]),
            ("enums", Json.bool false)]) }] :=
  ⟨rfl, by decide, by decide,
   (C8_identifier_precedence anyComlink anyOracle (some (PyVal.vInt 123))
     (some "p1") false false rfl).1 (by decide),
   (C8_identifier_precedence anyComlink anyOracle (some (PyVal.vInt 123))
     (some "p1") false false rfl).2.2.1 (by decide)⟩

/-- C9: whenever the metadata response carries both version fields,
`get_latest_game_version()` returns a dict with exactly the keys `game` and
`localization` holding those fields verbatim (and issues one metadata
request). -/
theorem C9_latest_game_version (c : Comlink) (o : Oracle)
    (hopen : c.sessionOpen = true) (g l : Json)
    (hg : jsonGet (o metadataReq) "latestGamedataVersion" = some g)
    (hl : jsonGet (o metadataReq) "latestLocalizationBundleVersion" = some l) :
    Comlink.get_latest_game_version c o =
      (.ok (Json.obj [("game", g), ("localization", l)]), [metadataReq]) :=
  glgv_ok hopen hg hl

/-- C9 witness: with a concrete metadata response the two fields are
extracted verbatim. -/
theorem C9_latest_game_version_witness :
    anyComlink.sessionOpen = true ∧
    jsonGet (demoOracle metadataReq) "latestGamedataVersion" =
      some (Json.str "g1") ∧
    jsonGet (demoOracle metadataReq) "latestLocalizationBundleVersion" =
      some (Json.str "l1") ∧
    Comlink.get_latest_game_version anyComlink demoOracle =
      (.ok (Json.obj [("game", Json.str "g1"),
                      ("localization", Json.str "l1")]),
       [metadataReq]) :=
  ⟨rfl, rfl, rfl,
   C9_latest_game_version anyComlink demoOracle rfl (Json.str "g1")
     (Json.str "l1") rfl rfl⟩

/-- C10: in every `/data` request issued by `get_game_data`, the payload's
`items` and `requestSegment` fields are mutually exclusive: with a truthy
`items` argument the payload holds `items` (the stringified looked-up value)
and no `requestSegment`; otherwise it holds `requestSegment` (the
`request_segment` argument) and no `items`. -/
theorem C10_items_segment_exclusive (c : Comlink) (o : Oracle)
    (gv : Json → Json) (version : Option String) (ipv : Bool) (seg : Int)
    (items : Option Json) (e : Bool) :
    ∀ r ∈ (Comlink.get_game_data c o gv version ipv seg items e).2,
      r.endpoint = "/data" →
      ∃ fs pf, r.body = some (Json.obj fs) ∧
        lookupKey fs "payload" = some (Json.obj pf) ∧
        (pyTruthyOpt items = true →
          lookupKey pf "items" =
            some (Json.str (pyStrOfJson (gv (items.getD Json.null)))) ∧
          hasKey pf "requestSegment" = false) ∧
        (pyTruthyOpt items = false →
          lookupKey pf "requestSegment" = some (Json.num seg) ∧
          hasKey pf "items" = false) := by
  intro r hr hep
  have hfin : ∀ (vjson : Json),
      r = { method := .post, endpoint := "/data",
            body := some (Json.obj
              [("payload", Json.obj
                 (if pyTruthyOpt items then
                    setKey [("version", Json.str (pyStrOfJson vjson)),
                            ("includePveUnits", Json.bool ipv)] "items"
                      (Json.str (pyStrOfJson (gv (items.getD Json.null))))
                  else
                    setKey [("version", Json.str (pyStrOfJson vjson)),
                            ("includePveUnits", Json.bool ipv)] "requestSegment"
                      (Json.num seg))),
               ("enums", Json.bool e)]) } →
      ∃ fs pf, r.body = some (Json.obj fs) ∧
        lookupKey fs "payload" = some (Json.obj pf) ∧
        (pyTruthyOpt items = true →
          lookupKey pf "items" =
            some (Json.str (pyStrOfJson (gv (items.getD Json.null)))) ∧
          hasKey pf "requestSegment" = false) ∧
        (pyTruthyOpt items = false →
          lookupKey pf "requestSegment" = some (Json.num seg) ∧
          hasKey pf "items" = false) := by
    intro vjson hreq
    subst hreq
    by_cases hit : pyTruthyOpt items = true
    · refine ⟨_, _, rfl, rfl, ?_, ?_⟩ <;> intro h
      · simp [hit, setKey, lookupKey, hasKey]
      · rw [hit] at h
        exact absurd h (by decide)
    · have hit2 : pyTruthyOpt items = false := by
        cases hx : pyTruthyOpt items
        · rfl
        · exact absurd hx hit
      refine ⟨_, _, rfl, rfl, ?_, ?_⟩ <;> intro h
      · rw [hit2] at h
        exact absurd h (by decide)
      · simp [hit2, setKey, lookupKey, hasKey]
  simp only [Comlink.get_game_data] at hr
  by_cases hv : pyTruthyStr version = true
  · rw [if_pos hv] at hr
    rw [snd_post_step] at hr
    simp only [List.nil_append] at hr
    exact hfin _ (mem_post_trace hr)
  · rw [if_neg hv] at hr
    rcases hge : Comlink.get_latest_game_version c o with ⟨res, tr⟩
    rw [hge] at hr
    have hmeta : r ∈ tr → False := by
      intro htr
      have hmem : r ∈ (Comlink.get_latest_game_version c o).2 := by
        rw [hge]
        exact htr
      rw [mem_glgv_trace hmem] at hep
      exact absurd hep (by decide)
    rcases res with err | vj
    · simp only [] at hr
      exact absurd hr hmeta
    · rcases hjg : jsonGet vj "game" with _ | gj
      · simp only [hjg] at hr
        exact absurd hr hmeta
      · simp only [hjg] at hr
        rcases List.mem_append.mp hr with h | h
        · exact absurd h hmeta
        · exact hfin _ (mem_post_trace h)

/-- C10 witness: a concrete call with a truthy `items` argument produces a
`/data` payload carrying `items` and no `requestSegment`. -/
theorem C10_items_segment_exclusive_witness :
    ({ method := .post, endpoint := "/data",
       body := some (Json.obj
         [("payload", Json.obj
            [("version", Json.str "v1"),
             ("includePveUnits", Json.bool false),
             ("items", Json.str "7")]),
          ("enums", Json.bool false)]) } : Request) ∈
      (Comlink.get_game_data anyComlink anyOracle (fun _ => Json.num 7)
        (some "v1") false 0 (some (Json.str "units")) false).2 ∧
    ∃ fs pf,
      ({ method := .post, endpoint := "/data",
         body := some (Json.obj
           [("payload", Json.obj
              [("version", Json.str "v1"),
               ("includePveUnits", Json.bool false),
               ("items", Json.str "7")]),
            ("enums", Json.bool false)]) } : Request).body =
        some (Json.obj fs) ∧
      lookupKey fs "payload" = some (Json.obj pf) ∧
      (pyTruthyOpt (some (Json.str "units")) = true →
        lookupKey pf "items" =
          some (Json.str (pyStrOfJson
            ((fun _ => Json.num 7) ((some (Json.str "units")).getD Json.null)))) ∧
        hasKey pf "requestSegment" = false) ∧
      (pyTruthyOpt (some (Json.str "units")) = false →
        lookupKey pf "requestSegment" = some (Json.num 0) ∧
        hasKey pf "items" = false) := by
  constructor
  · exact List.mem_singleton_self _
  · exact C10_items_segment_exclusive anyComlink anyOracle (fun _ => Json.num 7)
      (some "v1") false 0 (some (Json.str "units")) false _
      (List.mem_singleton_self _) rfl

lemma payload_enums_ok (ep : String) (pf : List (String × Json)) (b : Bool) :
    postBodyOk { method := .post, endpoint := ep,
                 body := some (Json.obj
                   [("payload", Json.obj pf), ("enums", Json.bool b)]) } ∧
    hasStructuredPayload { method := .post, endpoint := ep,
                           body := some (Json.obj
                             [("payload", Json.obj pf),
                              ("enums", Json.bool b)]) } := by
  constructor
  · exact ⟨rfl, _, rfl, ⟨b, by simp [lookupKey]⟩,
      Or.inl (by simp [hasKey, lookupKey])⟩
  · exact ⟨_, pf, rfl, by simp [lookupKey]⟩

lemma payload_unzip_enums_ok (ep : String) (pf : List (String × Json))
    (u b : Bool) :
    postBodyOk { method := .post, endpoint := ep,
                 body := some (Json.obj
                   [("payload", Json.obj pf), ("unzip", Json.bool u),
                    ("enums", Json.bool b)]) } ∧
    hasStructuredPayload { method := .post, endpoint := ep,
                           body := some (Json.obj
                             [("payload", Json.obj pf), ("unzip", Json.bool u),
                              ("enums", Json.bool b)]) } := by
  constructor
  · exact ⟨rfl, _, rfl, ⟨b, by simp [lookupKey]⟩,
      Or.inl (by simp [hasKey, lookupKey])⟩
  · exact ⟨_, pf, rfl, by simp [lookupKey]⟩

lemma enums_only_ok (ep : String) (b : Bool)
    (hep : ep = "/getEvents" ∨ ep = "/metadata") :
    postBodyOk { method := .post, endpoint := ep,
                 body := some (Json.obj [("enums", Json.bool b)]) } ∧
    ¬ hasPayloadKey { method := .post, endpoint := ep,
                      body := some (Json.obj [("enums", Json.bool b)]) } := by
  constructor
  · exact ⟨rfl, _, rfl, ⟨b, by simp [lookupKey]⟩,
      Or.inr (by simpa using hep)⟩
  · rintro ⟨fs, hfs, hk⟩
    have hfs2 : [("enums", Json.bool b)] = fs := by
      simpa using hfs
    subst hfs2
    simp [hasKey, lookupKey] at hk

lemma enums_payload_ok (ep : String) (b : Bool) (pv : List (String × Json)) :
    postBodyOk { method := .post, endpoint := ep,
                 body := some (Json.obj
                   [("enums", Json.bool b), ("payload", Json.obj pv)]) } ∧
    hasStructuredPayload { method := .post, endpoint := ep,
                           body := some (Json.obj
                             [("enums", Json.bool b),
                              ("payload", Json.obj pv)]) } := by
  constructor
  · exact ⟨rfl, _, rfl, ⟨b, by simp [lookupKey]⟩,
      Or.inl (by simp [hasKey, lookupKey])⟩
  · exact ⟨_, pv, rfl, by simp [lookupKey]⟩

lemma localization_trace_cases {c : Comlink} {o : Oracle} {id : Option String}
    {unzip : Bool} {loc : Option String} {e : Bool} {r : Request}
    (hr : r ∈ (Comlink.get_localization c o id unzip loc e).2) :
    r = metadataReq ∨ ∃ v : String, r = locReqOf v unzip e := by
  simp only [Comlink.get_localization] at hr
  by_cases hid : pyTruthyStr id = true
  · rw [if_pos hid] at hr
    rw [snd_post_step] at hr
    simp only [List.nil_append] at hr
    exact Or.inr ⟨_, mem_post_trace hr⟩
  · rw [if_neg hid] at hr
    rcases hge : Comlink.get_latest_game_version c o with ⟨res, tr⟩
    rw [hge] at hr
    have hmeta : r ∈ tr → r = metadataReq := by
      intro htr
      apply mem_glgv_trace
      rw [hge]
      exact htr
    rcases res with err | vj
    · simp only [] at hr
      exact Or.inl (hmeta hr)
    · rcases hjl : jsonGet vj "localization" with _ | lj
      · simp only [hjl] at hr
        exact Or.inl (hmeta hr)
      · simp only [hjl] at hr
        rcases List.mem_append.mp hr with h | h
        · exact Or.inl (hmeta h)
        · exact Or.inr ⟨_, mem_post_trace h⟩

lemma game_data_trace_cases {c : Comlink} {o : Oracle} {gv : Json → Json}
    {version : Option String} {ipv : Bool} {seg : Int} {items : Option Json}
    {e : Bool} {r : Request}
    (hr : r ∈ (Comlink.get_game_data c o gv version ipv seg items e).2) :
    r = metadataReq ∨
    ∃ vjson : Json,
      r = { method := .post, endpoint := "/data",
            body := some (Json.obj
              [("payload", Json.obj
                 (if pyTruthyOpt items then
                    setKey [("version", Json.str (pyStrOfJson vjson)),
                            ("includePveUnits", Json.bool ipv)] "items"
                      (Json.str (pyStrOfJson (gv (items.getD Json.null))))
                  else
                    setKey [("version", Json.str (pyStrOfJson vjson)),
                            ("includePveUnits", Json.bool ipv)] "requestSegment"
                      (Json.num seg))),
               ("enums", Json.bool e)]) } := by
  simp only [Comlink.get_game_data] at hr
  by_cases hv : pyTruthyStr version = true
  · rw [if_pos hv] at hr
    rw [snd_post_step] at hr
    simp only [List.nil_append] at hr
    exact Or.inr ⟨_, mem_post_trace hr⟩
  · rw [if_neg hv] at hr
    rcases hge : Comlink.get_latest_game_version c o with ⟨res, tr⟩
    rw [hge] at hr
    have hmeta : r ∈ tr → r = metadataReq := by
      intro htr
      apply mem_glgv_trace
      rw [hge]
      exact htr
    rcases res with err | vj
    · simp only [] at hr
      exact Or.inl (hmeta hr)
    · rcases hjg : jsonGet vj "game" with _ | gj
      · simp only [hjg] at hr
        exact Or.inl (hmeta hr)
      · simp only [hjg] at hr
        rcases List.mem_append.mp hr with h | h
        · exact Or.inl (hmeta h)
        · exact Or.inr ⟨_, mem_post_trace h⟩

/-- C2 (counterexample): the claim says every non-`/enums` body has shape
`{payload: {...}, enums: bool}`.  `get_events` sends `{"enums": false}` with
no `payload` key at all (and `get_metadata` without client specs does the
same), refuting the universal claim. -/
theorem C2_counterexample :
    (Comlink.get_events anyComlink anyOracle false).2 =
      [{ method := .post, endpoint := "/getEvents",
         body := some (Json.obj [("enums", Json.bool false)]) }] ∧
    hasKey [("enums", Json.bool false)] "payload" = false :=
  ⟨rfl, rfl⟩

/-- C2 (amended): every request issued by any endpoint method is a POST whose
JSON-object body carries an `enums` boolean, and carries a `payload` key
holding a structured value (a JSON object) except for bodies sent to
`/getEvents` (never has one) and to `/metadata`, which has one exactly when a
truthy `clientSpecs` dict (a nonempty JSON object) is supplied — with `None`,
an empty dict, or any non-dict value the `/metadata` body has no `payload`
key at all; `get_enums` is the one GET, to `/enums`, with no body. -/
theorem C2_amended :
    (∀ (c : Comlink) (o : Oracle) (e : Bool) (cs : Option Json),
      ∀ r ∈ (Comlink.get_metadata c o e cs).2, postBodyOk r) ∧
    (∀ (c : Comlink) (o : Oracle) (e : Bool),
      ∀ r ∈ (Comlink.get_events c o e).2,
        postBodyOk r ∧ ¬ hasPayloadKey r) ∧
    (∀ (c : Comlink) (o : Oracle) (e : Bool) (kv : String × Json)
       (rest : List (String × Json)),
      ∀ r ∈ (Comlink.get_metadata c o e (some (Json.obj (kv :: rest)))).2,
        hasStructuredPayload r) ∧
    (∀ (c : Comlink) (o : Oracle) (e : Bool) (cs : Option Json),
      (∀ (kv : String × Json) (rest : List (String × Json)),
        cs ≠ some (Json.obj (kv :: rest))) →
      ∀ r ∈ (Comlink.get_metadata c o e cs).2, ¬ hasPayloadKey r) ∧
    (∀ (c : Comlink) (o : Oracle),
      ∀ r ∈ (Comlink.get_latest_game_version c o).2, postBodyOk r) ∧
    (∀ (c : Comlink) (o : Oracle) (gv : Json → Json) (v : Option String)
       (ipv : Bool) (seg : Int) (items : Option Json) (e : Bool),
      ∀ r ∈ (Comlink.get_game_data c o gv v ipv seg items e).2,
        postBodyOk r ∧ (r.endpoint = "/data" → hasStructuredPayload r)) ∧
    (∀ (c : Comlink) (o : Oracle) (a : Option PyVal) (pid : Option String)
       (e : Bool),
      ∀ r ∈ (Comlink.get_player c o a pid e).2,
        postBodyOk r ∧ hasStructuredPayload r) ∧
    (∀ (c : Comlink) (o : Oracle) (a : Option PyVal) (pid : Option String)
       (pdo e : Bool),
      ∀ r ∈ (Comlink.get_player_arena c o a pid pdo e).2,
        postBodyOk r ∧ hasStructuredPayload r) ∧
    (∀ (c : Comlink) (o : Oracle) (id : Option String) (unzip : Bool)
       (loc : Option String) (e : Bool),
      ∀ r ∈ (Comlink.get_localization c o id unzip loc e).2,
        postBodyOk r ∧
          (r.endpoint = "/localization" → hasStructuredPayload r)) ∧
    (∀ (c : Comlink) (o : Oracle) (g : String) (inc e : Bool),
      ∀ r ∈ (Comlink.get_guild c o g inc e).2,
        postBodyOk r ∧ hasStructuredPayload r) ∧
    (∀ (c : Comlink) (o : Oracle) (n : String) (si ct : Int) (e : Bool),
      ∀ r ∈ (Comlink.get_guilds_by_name c o n si ct e).2,
        postBodyOk r ∧ hasStructuredPayload r) ∧
    (∀ (c : Comlink) (o : Oracle) (si ct mn mx : Int) (ii : Bool)
       (mg xg : Int) (tb : List String) (e : Bool),
      ∀ r ∈ (Comlink.get_guilds_by_criteria c o si ct mn mx ii mg xg tb e).2,
        postBodyOk r ∧ hasStructuredPayload r) ∧
    (∀ (c : Comlink) (o : Oracle) (t : Int) (ei gi : Option String)
       (l d : Option Int) (e : Bool),
      ∀ r ∈ (Comlink.get_leaderboard c o t ei gi l d e).2,
        postBodyOk r ∧ hasStructuredPayload r) ∧
    (∀ (c : Comlink) (o : Oracle) (ids : List Json) (ct : Int) (e : Bool),
      ∀ r ∈ (Comlink.get_guild_leaderboard c o ids ct e).2,
        postBodyOk r ∧ hasStructuredPayload r) ∧
    (∀ (c : Comlink) (o : Oracle),
      ∀ r ∈ (Comlink.get_enums c o).2,
        r.method = HMethod.get ∧ r.endpoint = "/enums" ∧ r.body = none) := by
  refine ⟨?_, ?_, ?_, ?_, ?_, ?_, ?_, ?_, ?_, ?_, ?_, ?_, ?_, ?_, ?_⟩
  · intro c o e cs r hr
    unfold Comlink.get_metadata at hr
    rw [mem_post_trace hr]
    rcases cs with _ | j
    · exact (enums_only_ok "/metadata" e (Or.inr rfl)).1
    · rcases j with _ | b2 | n2 | s2 | xs2 | specs
      · exact (enums_only_ok "/metadata" e (Or.inr rfl)).1
      · exact (enums_only_ok "/metadata" e (Or.inr rfl)).1
      · exact (enums_only_ok "/metadata" e (Or.inr rfl)).1
      · exact (enums_only_ok "/metadata" e (Or.inr rfl)).1
      · exact (enums_only_ok "/metadata" e (Or.inr rfl)).1
      · rcases specs with _ | ⟨kv, rest⟩
        · exact (enums_only_ok "/metadata" e (Or.inr rfl)).1
        · exact (enums_payload_ok "/metadata" e _).1
  · intro c o e r hr
    unfold Comlink.get_events at hr
    rw [mem_post_trace hr]
    exact enums_only_ok "/getEvents" e (Or.inl rfl)
  · intro c o e kv rest r hr
    unfold Comlink.get_metadata at hr
    rw [mem_post_trace hr]
    exact (enums_payload_ok "/metadata" e _).2
  · intro c o e cs hcs r hr
    unfold Comlink.get_metadata at hr
    rw [mem_post_trace hr]
    rcases cs with _ | j
    · exact (enums_only_ok "/metadata" e (Or.inr rfl)).2
    · rcases j with _ | b2 | n2 | s2 | xs2 | specs
      · exact (enums_only_ok "/metadata" e (Or.inr rfl)).2
      · exact (enums_only_ok "/metadata" e (Or.inr rfl)).2
      · exact (enums_only_ok "/metadata" e (Or.inr rfl)).2
      · exact (enums_only_ok "/metadata" e (Or.inr rfl)).2
      · exact (enums_only_ok "/metadata" e (Or.inr rfl)).2
      · rcases specs with _ | ⟨kv2, rest2⟩
        · exact (enums_only_ok "/metadata" e (Or.inr rfl)).2
        · exact absurd rfl (hcs kv2 rest2)
  · intro c o r hr
    rw [mem_glgv_trace hr]
    exact (enums_only_ok "/metadata" false (Or.inr rfl)).1
  · intro c o gv v ipv seg items e r hr
    rcases game_data_trace_cases hr with h | ⟨vjson, h⟩ <;> subst h
    · exact ⟨(enums_only_ok "/metadata" false (Or.inr rfl)).1,
        fun hep => absurd hep (by decide)⟩
    · exact ⟨(payload_enums_ok "/data" _ e).1,
        fun _ => (payload_enums_ok "/data" _ e).2⟩
  · intro c o a pid e r hr
    unfold Comlink.get_player at hr
    rw [mem_post_trace hr]
    exact payload_enums_ok "/player" _ e
  · intro c o a pid pdo e r hr
    unfold Comlink.get_player_arena at hr
    rw [mem_post_trace hr]
    exact payload_enums_ok "/playerArena" _ e
  · intro c o id unzip loc e r hr
    rcases localization_trace_cases hr with h | ⟨v, h⟩ <;> subst h
    · exact ⟨(enums_only_ok "/metadata" false (Or.inr rfl)).1,
        fun hep => absurd hep (by decide)⟩
    · exact ⟨(payload_unzip_enums_ok "/localization" _ unzip e).1,
        fun _ => (payload_unzip_enums_ok "/localization" _ unzip e).2⟩
  · intro c o g inc e r hr
    unfold Comlink.get_guild at hr
    rw [mem_post_trace hr]
    exact payload_enums_ok "/guild" _ e
  · intro c o n si ct e r hr
    unfold Comlink.get_guilds_by_name at hr
    rw [mem_post_trace hr]
    exact payload_enums_ok "/getGuilds" _ e
  · intro c o si ct mn mx ii mg xg tb e r hr
    unfold Comlink.get_guilds_by_criteria at hr
    rw [mem_post_trace hr]
    exact payload_enums_ok "/getGuilds" _ e
  · intro c o t ei gi l d e r hr
    unfold Comlink.get_leaderboard at hr
    rw [mem_post_trace hr]
    exact payload_enums_ok "/getLeaderboard" _ e
  · intro c o ids ct e r hr
    unfold Comlink.get_guild_leaderboard at hr
    rw [mem_post_trace hr]
    exact payload_enums_ok "/getGuildLeaderboard" _ e
  · intro c o r hr
    unfold Comlink.get_enums at hr
    split at hr
    · have hreq :
          r = { method := HMethod.get, endpoint := "/enums",
                body := none } := by
        simpa using hr
      subst hreq
      exact ⟨rfl, rfl, rfl⟩
    · simp at hr

/-- C2 witness: the default metadata request is a POST whose body carries the
`enums` boolean. -/
theorem C2_amended_witness :
    metadataReq ∈ (Comlink.get_metadata anyComlink anyOracle false none).2 ∧
    postBodyOk metadataReq := by
  constructor
  · exact List.mem_singleton_self _
  · exact C2_amended.1 anyComlink anyOracle false none metadataReq
      (List.mem_singleton_self _)
